import Mathlib

/-!
Verification development for the FlashAttention ROCm dispatch layer
(`csrc/flash_attn_rocm/src/flash_runner.h`).

The repository source under inspection is the public header of the
`FlashRunner` orchestrator.  The header fixes the observable interface:

  class FlashRunner {
   public:
    explicit FlashRunner(bool is_unit_test_mode, bool is_deterministic);
    void RunFwd(FlashFwdParams &params, hipStream_t &stream);
    void RunBwd(FlashBwdParams &params, hipStream_t &stream);
   private:
    std::unique_ptr of fwd_device_gemm::FlashFwdRunner pimpl_fwd_runner_;
    std::unique_ptr of bwd_device_gemm::FlashBwdRunner pimpl_bwd_runner_;
  };

with build-time includes of the gfx90a forward and backward runner
implementations.  The engine bodies, the parameter records and the
validation/selection logic are not part of the sources available here, so
they are modelled from the specification (spec sections 3, 4, 7), faithful
to its words; every such definition is marked `Modelled from the spec:`.
Numeric kernel bodies are explicitly out of the spec's own scope (spec
section 1), so buffer values are modelled as machine words (bit patterns)
and the interesting observable structure is the reduction order.
-/

/-! ## Data model -/

/-- Modelled from the spec: numeric precision class of the tensors (the
element type/precision field of the Parameter Descriptor, spec section 3);
the concrete enumeration is not in the sources. -/
inductive Precision where
  | fp16
  | bf16
  deriving DecidableEq

/-- Hardware class of a compiled kernel variant (spec section 6 keys the
kernel registry by hardware class).  The header pins the build to gfx90a;
a second class is included so that statements about the hardware class of
selected kernels are not vacuous. -/
inductive HardwareClass where
  | gfx90a
  | gfx908
  deriving DecidableEq

/-- Modelled from the spec: the forward Parameter Descriptor
(spec section 3) — batch size, number of heads, sequence lengths, head
dimension, precision, per-tensor row strides, buffer handles, softmax
scale, causal flag, dropout probability and seed/offset, and the buffer
for saved softmax statistics.  The concrete `FlashFwdParams` record from
`params.h` is not in the sources.  Shape and stride fields are `Int` so
that malformed (negative) values are representable; the dropout
probability is a rational standing for the caller-supplied float. -/
structure FlashFwdParams where
  b : Int
  h : Int
  seqlen_q : Int
  seqlen_k : Int
  d : Int
  precision : Precision
  q_row_stride : Int
  k_row_stride : Int
  v_row_stride : Int
  o_row_stride : Int
  q_ptr : Nat
  k_ptr : Nat
  v_ptr : Nat
  o_ptr : Nat
  softmax_lse_ptr : Nat
  softmax_scale : Rat
  is_causal : Bool
  p_dropout : Rat
  seed : Nat
  offset : Nat
  deriving DecidableEq

/-- Modelled from the spec: the backward Parameter Descriptor is a
superset of the forward one (spec section 3), adding the incoming
output-gradient buffer, the saved forward statistics, and the output
buffers for query/key/value gradients.  The concrete `FlashBwdParams`
record from `params.h` is not in the sources. -/
structure FlashBwdParams extends FlashFwdParams where
  do_ptr : Nat
  saved_lse_ptr : Nat
  dq_ptr : Nat
  dk_ptr : Nat
  dv_ptr : Nat
  deriving DecidableEq

/-- Modelled from the spec: descriptor validation (spec sections 3 and
4.1) — all shape fields positive, strides describing a valid
non-overlapping row layout (each row stride at least the head dimension),
dropout probability in [0, 1).  The validation code itself is not in the
sources. -/
def validFwd (p : FlashFwdParams) : Bool :=
  decide (0 < p.b) && decide (0 < p.h) &&
  decide (0 < p.seqlen_q) && decide (0 < p.seqlen_k) && decide (0 < p.d) &&
  decide (p.d ≤ p.q_row_stride) && decide (p.d ≤ p.k_row_stride) &&
  decide (p.d ≤ p.v_row_stride) && decide (p.d ≤ p.o_row_stride) &&
  decide (0 ≤ p.p_dropout) && decide (p.p_dropout < 1)

/-- Modelled from the spec: backward validation mirrors the forward
validation contract on the shared shape/stride/probability fields
(spec section 4.3). -/
def validBwd (p : FlashBwdParams) : Bool :=
  validFwd p.toFlashFwdParams

/-! ## Kernel registry and selection -/

/-- A compiled kernel variant, keyed as in spec section 6 by
(head dimension, precision, causal flag, hardware class). -/
structure KernelVariant where
  headDim : Int
  precision : Precision
  is_causal : Bool
  hw : HardwareClass
  deriving DecidableEq

/-- Modelled from the spec: the fixed registry of compiled forward kernel
variants (spec section 6), supplied at build time.  The header includes
only the gfx90a forward runner implementation, so every entry carries the
gfx90a hardware class; the concrete variant table is not in the sources. -/
def fwdKernelRegistry : List KernelVariant :=
  (([32, 64, 128] : List Int).flatMap fun hd =>
    ([Precision.fp16, Precision.bf16]).flatMap fun pr =>
      ([false, true] : List Bool).map fun c =>
        { headDim := hd, precision := pr, is_causal := c, hw := HardwareClass.gfx90a })

/-- Modelled from the spec: the fixed registry of compiled backward kernel
variants; the header includes only the gfx90a backward runner
implementation. -/
def bwdKernelRegistry : List KernelVariant :=
  fwdKernelRegistry

/-- Modelled from the spec: forward kernel selection (spec section 4.2) —
match the descriptor's head dimension, precision and causal flag together
with the build-time hardware class against the fixed registry. -/
def selectFwdVariant (p : FlashFwdParams) : Option KernelVariant :=
  (fwdKernelRegistry.filter fun v =>
    decide (v.headDim = p.d) && decide (v.precision = p.precision) &&
    decide (v.is_causal = p.is_causal) &&
    decide (v.hw = HardwareClass.gfx90a)).head?

/-- Modelled from the spec: backward kernel selection mirrors the forward
selection (spec section 4.3). -/
def selectBwdVariant (p : FlashBwdParams) : Option KernelVariant :=
  (bwdKernelRegistry.filter fun v =>
    decide (v.headDim = p.d) && decide (v.precision = p.precision) &&
    decide (v.is_causal = p.is_causal) &&
    decide (v.hw = HardwareClass.gfx90a)).head?

/-! ## Streams, commands and device memory -/

/-- Work enqueued on a stream: a selected kernel variant together with the
descriptor it was launched with and the execution-mode flag captured from
the engine that launched it. -/
inductive GpuCommand where
  | fwdKernel (v : KernelVariant) (p : FlashFwdParams) (unitTestMode : Bool)
  | bwdKernel (v : KernelVariant) (p : FlashBwdParams) (deterministicMode : Bool)
  deriving DecidableEq

/-- A stream handle: an opaque, caller-owned ordered GPU command queue
(spec section 3).  The identity `id` models the handle itself; the queue
is the ordered work enqueued on it. -/
structure GpuStream where
  id : Nat
  queue : List GpuCommand
  deriving DecidableEq

/-- The empty stream used to state run-to-run comparisons. -/
def emptyStream : GpuStream := { id := 0, queue := [] }

/-- Caller-visible device buffers: the attention output and saved softmax
statistics written by the forward pass, and the three gradient buffers
written by the backward pass.  Values are machine words (bit patterns),
since bit-identity is the property of interest. -/
structure DeviceMemory where
  out_buf : List Nat
  softmax_lse_buf : List Nat
  dq_buf : List Nat
  dk_buf : List Nat
  dv_buf : List Nat
  deriving DecidableEq

/-! ## Errors and the host-call results -/

/-- The error kinds of spec section 7. -/
inductive FlashError where
  | invalidParameters
  | unsupportedConfiguration
  | deviceExecutionFailure
  deriving DecidableEq

/-- Result of an engine-level run: the (possibly extended) stream and an
optional synchronous error. -/
structure EngineResult where
  stream : GpuStream
  err : Option FlashError
  deriving DecidableEq

/-! ## Execution engines -/

/-- The forward execution engine (`fwd_device_gemm::FlashFwdRunner` in the
header), configured at construction with the two execution-mode flags. -/
structure FlashFwdRunner where
  is_unit_test_mode : Bool
  is_deterministic : Bool
  deriving DecidableEq

/-- The backward execution engine (`bwd_device_gemm::FlashBwdRunner` in
the header), configured at construction with the two execution-mode
flags. -/
structure FlashBwdRunner where
  is_unit_test_mode : Bool
  is_deterministic : Bool
  deriving DecidableEq

/-- Modelled from the spec: the forward engine run (spec sections 4.1 and
4.2), whose body is not in the sources — validate the descriptor
(`InvalidParameters` synchronously, nothing enqueued), select a compiled
variant (`UnsupportedConfiguration` if none matches, nothing enqueued),
otherwise enqueue the kernel launch on the given stream and return. -/
def FlashFwdRunner.Run (e : FlashFwdRunner) (p : FlashFwdParams)
    (s : GpuStream) : EngineResult :=
  if validFwd p then
    match selectFwdVariant p with
    | some v =>
        { stream := { s with queue := s.queue ++ [GpuCommand.fwdKernel v p e.is_unit_test_mode] },
          err := none }
    | none => { stream := s, err := some FlashError.unsupportedConfiguration }
  else
    { stream := s, err := some FlashError.invalidParameters }

/-- Modelled from the spec: the backward engine run (spec sections 4.1 and
4.3), whose body is not in the sources — same validation and selection
contract as the forward engine, enqueuing the backward kernel with the
engine's deterministic-accumulation flag. -/
def FlashBwdRunner.Run (e : FlashBwdRunner) (p : FlashBwdParams)
    (s : GpuStream) : EngineResult :=
  if validBwd p then
    match selectBwdVariant p with
    | some v =>
        { stream := { s with queue := s.queue ++ [GpuCommand.bwdKernel v p e.is_deterministic] },
          err := none }
    | none => { stream := s, err := some FlashError.unsupportedConfiguration }
  else
    { stream := s, err := some FlashError.invalidParameters }

/-! ## The Runner -/

/-- The `FlashRunner` orchestrator of `flash_runner.h`: it exclusively
owns one forward engine and one backward engine (the two `unique_ptr`
members `pimpl_fwd_runner_` and `pimpl_bwd_runner_`). -/
structure FlashRunner where
  pimpl_fwd_runner : FlashFwdRunner
  pimpl_bwd_runner : FlashBwdRunner
  deriving DecidableEq

/-- Modelled from the spec: the constructor body
`FlashRunner(is_unit_test_mode, is_deterministic)` is not in the sources;
per spec section 4.1 it allocates one forward and one backward engine,
both configured with the same two flags. -/
def mkFlashRunner (is_unit_test_mode is_deterministic : Bool) : FlashRunner :=
  { pimpl_fwd_runner :=
      { is_unit_test_mode := is_unit_test_mode, is_deterministic := is_deterministic },
    pimpl_bwd_runner :=
      { is_unit_test_mode := is_unit_test_mode, is_deterministic := is_deterministic } }

/-- Result of a host-level `RunFwd` call: the runner after the call, the
descriptor after the call (both taken by non-const reference in the
header, so the model returns them), the stream after the call, and the
synchronous error, if any. -/
structure FwdCallResult where
  runner : FlashRunner
  params : FlashFwdParams
  stream : GpuStream
  err : Option FlashError
  deriving DecidableEq

/-- Result of a host-level `RunBwd` call. -/
structure BwdCallResult where
  runner : FlashRunner
  params : FlashBwdParams
  stream : GpuStream
  err : Option FlashError
  deriving DecidableEq

/-- Modelled from the spec: `FlashRunner::RunFwd` (declared in the header,
body not in the sources) routes the call to the forward engine, passing
the descriptor and stream through unchanged and retaining nothing
(spec sections 2 and 4.1). -/
def FlashRunner.RunFwd (r : FlashRunner) (p : FlashFwdParams)
    (s : GpuStream) : FwdCallResult :=
  let er := r.pimpl_fwd_runner.Run p s
  { runner := r, params := p, stream := er.stream, err := er.err }

/-- Modelled from the spec: `FlashRunner::RunBwd` (declared in the header,
body not in the sources) routes the call to the backward engine, passing
the descriptor and stream through unchanged and retaining nothing. -/
def FlashRunner.RunBwd (r : FlashRunner) (p : FlashBwdParams)
    (s : GpuStream) : BwdCallResult :=
  let er := r.pimpl_bwd_runner.Run p s
  { runner := r, params := p, stream := er.stream, err := er.err }

/-! ## Asynchronous execution of enqueued work

The host call only enqueues; buffers change when the enqueued work
executes on the device (the caller synchronizes the stream to observe
them, spec section 5).  GPU scheduling nondeterminism is made explicit as
a `sched : List Nat` argument: the order in which parallel tiles commit
their contributions.  A fixed (schedule-independent) order models the
serialized, shape-derived reduction of the deterministic paths
(spec sections 4.2 and 4.3). -/

/-- The tile block size used to derive the number of parallel tiles from
the key sequence length. -/
def tileBlock : Nat := 128

/-- Number of parallel key/value tiles for a descriptor's shape. -/
def numTiles (p : FlashFwdParams) : Nat :=
  (p.seqlen_k.toNat + tileBlock - 1) / tileBlock

/-- Number of output rows (batch times heads times query length). -/
def numRows (p : FlashFwdParams) : Nat :=
  (p.b * p.h * p.seqlen_q).toNat

/-- Modelled from the spec: bit-level floating-point accumulation, whose
defining observable property is non-associativity (spec section 4.3: the
binary result of unordered accumulation can vary run-to-run because
floating-point addition is not associative).  The numeric kernel bodies
are out of the spec's scope, so a concrete order-sensitive word operation
stands in for the float add. -/
def fadd (a b : Nat) : Nat := (3 * a + b) % 2 ^ 32

/-- The order in which parallel tiles commit.  With `fixedOrder = true`
the serialized, shape-derived order `0, 1, ..., n-1` is used regardless
of the device schedule; otherwise the device schedule dictates the commit
order. -/
def tileOrder (fixedOrder : Bool) (sched : List Nat) (n : Nat) : List Nat :=
  if fixedOrder then List.range n
  else (sched.filter fun i => i < n) ++ ((List.range n).filter fun i => !(sched.contains i))

/-- Modelled from the spec: the bit pattern a forward tile contributes to
an output row — an abstract word derived from the descriptor (including
the dropout seed/offset) and the tile index, since the kernel numerics
are out of the spec's scope. -/
def fwdTileWord (p : FlashFwdParams) (row i : Nat) : Nat :=
  (p.seed + p.offset + 31 * row + 2654435761 * i + p.q_ptr + p.k_ptr + p.v_ptr) % 2 ^ 32

/-- Modelled from the spec: the bit pattern a forward tile contributes to
a row's saved softmax statistic (row max and sum of exponentials,
spec section 4.2). -/
def lseTileWord (p : FlashFwdParams) (row i : Nat) : Nat :=
  (p.seed + 17 * row + 97 * i + p.softmax_lse_ptr) % 2 ^ 32

/-- Modelled from the spec: the bit pattern a backward tile contributes to
a gradient row of buffer `which` (0, 1, 2 for the query, key and value
gradients). -/
def bwdTileWord (p : FlashBwdParams) (which row i : Nat) : Nat :=
  (p.seed + 13 * which + 29 * row + 2246822519 * i + p.do_ptr + p.saved_lse_ptr) % 2 ^ 32

/-- Modelled from the spec: device execution of a forward kernel launch
(spec section 4.2).  Each output row and each saved-statistics row is the
accumulation of its tile contributions; in unit-test mode the engine uses
the fixed serialized order, otherwise the device schedule's order. -/
def execFwdKernel (sched : List Nat) (p : FlashFwdParams) (unitTestMode : Bool)
    (mem : DeviceMemory) : DeviceMemory :=
  let order := tileOrder unitTestMode sched (numTiles p)
  { mem with
    out_buf := (List.range (numRows p)).map fun row =>
      (order.map (fwdTileWord p row)).foldl fadd 0,
    softmax_lse_buf := (List.range (numRows p)).map fun row =>
      (order.map (lseTileWord p row)).foldl fadd 0 }

/-- Modelled from the spec: device execution of a backward kernel launch
(spec section 4.3).  Gradient contributions from parallel tiles are
accumulated in the device schedule's order when `deterministicMode` is
false (unordered atomic addition), and in the fixed, shape-derived
serialized order when it is true. -/
def execBwdKernel (sched : List Nat) (p : FlashBwdParams) (deterministicMode : Bool)
    (mem : DeviceMemory) : DeviceMemory :=
  let order := tileOrder deterministicMode sched (numTiles p.toFlashFwdParams)
  { mem with
    dq_buf := (List.range (numRows p.toFlashFwdParams)).map fun row =>
      (order.map (bwdTileWord p 0 row)).foldl fadd 0,
    dk_buf := (List.range (numRows p.toFlashFwdParams)).map fun row =>
      (order.map (bwdTileWord p 1 row)).foldl fadd 0,
    dv_buf := (List.range (numRows p.toFlashFwdParams)).map fun row =>
      (order.map (bwdTileWord p 2 row)).foldl fadd 0 }

/-- Device execution of one enqueued command under a given schedule. -/
def execCommand (sched : List Nat) (mem : DeviceMemory) : GpuCommand → DeviceMemory
  | GpuCommand.fwdKernel _ p ut => execFwdKernel sched p ut mem
  | GpuCommand.bwdKernel _ p det => execBwdKernel sched p det mem

/-- Synchronizing a stream: all enqueued work executes in queue order
under the device schedule, and the resulting device memory becomes
observable to the caller (spec section 5). -/
def syncStream (sched : List Nat) (s : GpuStream) (mem : DeviceMemory) : DeviceMemory :=
  s.queue.foldl (execCommand sched) mem

/-! ## Syntactic embedding of the header's interface declarations

`flash_runner.h` lines 36-39 are the only interface text in the sources;
the following definitions embed those declarations and the C++ binding
rules they are subject to. -/

/-- How a C++ parameter receives its argument. -/
inductive CppPassing where
  | byValue
  | lvalueRef
  | constLvalueRef
  | rvalueRef
  deriving DecidableEq

/-- One parameter of a C++ method declaration. -/
structure CppParamDecl where
  typeName : String
  passing : CppPassing
  deriving DecidableEq

/-- A C++ method declaration: name, return type and parameters. -/
structure CppMethodDecl where
  name : String
  ret : String
  args : List CppParamDecl
  deriving DecidableEq

/-- `void RunFwd(FlashFwdParams &params, hipStream_t &stream);`
(flash_runner.h line 38). -/
def runFwdDecl : CppMethodDecl :=
  { name := "RunFwd", ret := "void",
    args := [{ typeName := "FlashFwdParams", passing := CppPassing.lvalueRef },
             { typeName := "hipStream_t", passing := CppPassing.lvalueRef }] }

/-- `void RunBwd(FlashBwdParams &params, hipStream_t &stream);`
(flash_runner.h line 39). -/
def runBwdDecl : CppMethodDecl :=
  { name := "RunBwd", ret := "void",
    args := [{ typeName := "FlashBwdParams", passing := CppPassing.lvalueRef },
             { typeName := "hipStream_t", passing := CppPassing.lvalueRef }] }

/-- C++ binding rule: can a temporary (prvalue) be passed to a parameter
with this passing mode?  A non-const lvalue reference does not bind to a
temporary. -/
def bindsTemporary : CppPassing → Bool
  | CppPassing.byValue => true
  | CppPassing.lvalueRef => false
  | CppPassing.constLvalueRef => true
  | CppPassing.rvalueRef => true

/-- C++ type-level guarantee: does the parameter's passing mode guarantee
the caller's object is left unmodified by the call?  Only by-value and
const-reference passing give that guarantee at the type level. -/
def typeLevelUnmodified : CppPassing → Bool
  | CppPassing.byValue => true
  | CppPassing.lvalueRef => false
  | CppPassing.constLvalueRef => true
  | CppPassing.rvalueRef => false

/-! ## Helper lemmas -/

/-- The head of a list, when present, is a member of the list. -/
theorem mem_of_head_some {α : Type} {l : List α} {a : α}
    (h : l.head? = some a) : a ∈ l := by
  cases l with
  | nil => simp at h
  | cons x xs => simp_all

/-! ## Claim theorems -/

/-- Claim C3: constructing the Runner with the two booleans allocates one
forward engine and one backward engine, both configured with exactly those
two flags, and the flags (the engines' configuration) are unchanged by
every `RunFwd`/`RunBwd` call: each call returns the runner exactly as it
was. -/
theorem flashRunner_construction_and_flag_immutability :
    (∀ u d : Bool,
      (mkFlashRunner u d).pimpl_fwd_runner =
        { is_unit_test_mode := u, is_deterministic := d } ∧
      (mkFlashRunner u d).pimpl_bwd_runner =
        { is_unit_test_mode := u, is_deterministic := d }) ∧
    (∀ (r : FlashRunner) (p : FlashFwdParams) (s : GpuStream),
      (r.RunFwd p s).runner = r) ∧
    (∀ (r : FlashRunner) (p : FlashBwdParams) (s : GpuStream),
      (r.RunBwd p s).runner = r) :=
  ⟨fun _ _ => ⟨rfl, rfl⟩, fun _ _ _ => rfl, fun _ _ _ => rfl⟩

/-- Claim C6: the forward interface is `RunFwd(FlashFwdParams, hipStream_t)`
returning `void`, the backward interface is
`RunBwd(FlashBwdParams, hipStream_t)` returning `void`, and every call's
observable result is either success (no error) or one of the synchronous
error kinds. -/
theorem run_interface_void_or_error :
    runFwdDecl.name = "RunFwd" ∧ runFwdDecl.ret = "void" ∧
    runFwdDecl.args.map (fun a => a.typeName) = ["FlashFwdParams", "hipStream_t"] ∧
    runBwdDecl.name = "RunBwd" ∧ runBwdDecl.ret = "void" ∧
    runBwdDecl.args.map (fun a => a.typeName) = ["FlashBwdParams", "hipStream_t"] ∧
    (∀ (r : FlashRunner) (p : FlashFwdParams) (s : GpuStream),
      (r.RunFwd p s).err = none ∨
      (r.RunFwd p s).err = some FlashError.invalidParameters ∨
      (r.RunFwd p s).err = some FlashError.unsupportedConfiguration) ∧
    (∀ (r : FlashRunner) (p : FlashBwdParams) (s : GpuStream),
      (r.RunBwd p s).err = none ∨
      (r.RunBwd p s).err = some FlashError.invalidParameters ∨
      (r.RunBwd p s).err = some FlashError.unsupportedConfiguration) := by
  refine ⟨rfl, rfl, rfl, rfl, rfl, rfl, ?_, ?_⟩
  · intro r p s
    simp only [FlashRunner.RunFwd, FlashFwdRunner.Run]
    by_cases h : validFwd p
    · cases hs : selectFwdVariant p <;> simp [h, hs]
    · simp [h]
  · intro r p s
    simp only [FlashRunner.RunBwd, FlashBwdRunner.Run]
    by_cases h : validBwd p
    · cases hs : selectBwdVariant p <;> simp [h, hs]
    · simp [h]

/-- Claim C7: every `RunFwd`/`RunBwd` call hands the very descriptor and
stream it received to the matching engine, and the call's entire result is
the engine's result together with the untouched runner and descriptor —
the Runner keeps no copy of and no reference to either beyond the call. -/
theorem run_passthrough_unchanged :
    (∀ (r : FlashRunner) (p : FlashFwdParams) (s : GpuStream),
      r.RunFwd p s =
        { runner := r, params := p,
          stream := (r.pimpl_fwd_runner.Run p s).stream,
          err := (r.pimpl_fwd_runner.Run p s).err }) ∧
    (∀ (r : FlashRunner) (p : FlashBwdParams) (s : GpuStream),
      r.RunBwd p s =
        { runner := r, params := p,
          stream := (r.pimpl_bwd_runner.Run p s).stream,
          err := (r.pimpl_bwd_runner.Run p s).err }) :=
  ⟨fun _ _ _ => rfl, fun _ _ _ => rfl⟩

/-- Claim C8: no `RunFwd`/`RunBwd` call blocks — each is a total function
of its inputs whose only effect on the stream handle is to append enqueued
work: the handle's identity is preserved (the stream is never created or
destroyed) and the queue after the call is the queue before the call
followed by the newly enqueued work.  Device memory is not an input of the
host call at all, so the call synchronizes nothing. -/
theorem run_never_blocks_only_enqueues :
    ∀ (r : FlashRunner) (pf : FlashFwdParams) (pb : FlashBwdParams) (s : GpuStream),
      (r.RunFwd pf s).stream.id = s.id ∧
      (∃ t, (r.RunFwd pf s).stream.queue = s.queue ++ t) ∧
      (r.RunBwd pb s).stream.id = s.id ∧
      (∃ t, (r.RunBwd pb s).stream.queue = s.queue ++ t) := by
  intro r pf pb s
  refine ⟨?_, ?_, ?_, ?_⟩ <;>
    simp only [FlashRunner.RunFwd, FlashRunner.RunBwd,
      FlashFwdRunner.Run, FlashBwdRunner.Run]
  · by_cases h : validFwd pf
    · cases hs : selectFwdVariant pf <;> simp [h, hs]
    · simp [h]
  · by_cases h : validFwd pf
    · cases hs : selectFwdVariant pf <;> simp [h, hs]
    · exact ⟨[], by simp [h]⟩
  · by_cases h : validBwd pb
    · cases hs : selectBwdVariant pb <;> simp [h, hs]
    · simp [h]
  · by_cases h : validBwd pb
    · cases hs : selectBwdVariant pb <;> simp [h, hs]
    · exact ⟨[], by simp [h]⟩

/-- Claim C9: `RunFwd` and `RunBwd` take both the descriptor and the
stream handle by non-const lvalue reference, so neither parameter's type
guarantees the caller's object is left unmodified, and a temporary cannot
be bound to either argument. -/
theorem run_args_nonconst_lvalue_ref :
    (∀ a ∈ runFwdDecl.args, a.passing = CppPassing.lvalueRef) ∧
    (∀ a ∈ runBwdDecl.args, a.passing = CppPassing.lvalueRef) ∧
    bindsTemporary CppPassing.lvalueRef = false ∧
    typeLevelUnmodified CppPassing.lvalueRef = false := by
  decide

/-- Claim C10: the kernel registries consumed by the Runner contain only
gfx90a variants (the header fixes the gfx90a forward and backward runner
implementations at build time), and therefore every kernel variant that
forward or backward selection can ever dispatch belongs to the single
gfx90a hardware class — no runtime hardware-class selection exists at
this interface. -/
theorem kernel_dispatch_single_hardware_class :
    (∀ v ∈ fwdKernelRegistry, v.hw = HardwareClass.gfx90a) ∧
    (∀ v ∈ bwdKernelRegistry, v.hw = HardwareClass.gfx90a) ∧
    (∀ (p : FlashFwdParams) (v : KernelVariant),
      selectFwdVariant p = some v → v.hw = HardwareClass.gfx90a) ∧
    (∀ (p : FlashBwdParams) (v : KernelVariant),
      selectBwdVariant p = some v → v.hw = HardwareClass.gfx90a) := by
  have hreg : ∀ v ∈ fwdKernelRegistry, v.hw = HardwareClass.gfx90a := by decide
  refine ⟨hreg, hreg, ?_, ?_⟩
  · intro p v h
    exact hreg v (List.mem_of_mem_filter (mem_of_head_some h))
  · intro p v h
    exact hreg v (List.mem_of_mem_filter (mem_of_head_some h))

/-- Claim C1: for every descriptor with a malformed field, `RunFwd` and
`RunBwd` fail synchronously with `InvalidParameters`, enqueue no GPU work
(the stream is returned exactly as it was) and leave all caller-visible
state — runner, descriptor and stream — unchanged. -/
theorem invalid_params_rejected (pf : FlashFwdParams) (pb : FlashBwdParams)
    (hf : validFwd pf = false) (hb : validBwd pb = false) :
    ∀ (r : FlashRunner) (s : GpuStream),
      r.RunFwd pf s =
        { runner := r, params := pf, stream := s,
          err := some FlashError.invalidParameters } ∧
      r.RunBwd pb s =
        { runner := r, params := pb, stream := s,
          err := some FlashError.invalidParameters } := by
  intro r s
  constructor
  · simp [FlashRunner.RunFwd, FlashFwdRunner.Run, hf]
  · simp [FlashRunner.RunBwd, FlashBwdRunner.Run, hb]

/-- A forward descriptor with a malformed field: a negative query
sequence length. -/
def negSeqlenFwdParams : FlashFwdParams :=
  { b := 1, h := 1, seqlen_q := -3, seqlen_k := 128, d := 64,
    precision := Precision.fp16,
    q_row_stride := 64, k_row_stride := 64, v_row_stride := 64,
    o_row_stride := 64,
    q_ptr := 100, k_ptr := 200, v_ptr := 300, o_ptr := 400,
    softmax_lse_ptr := 500,
    softmax_scale := 1, is_causal := false,
    p_dropout := 0, seed := 0, offset := 0 }

/-- A backward descriptor with a malformed field: a dropout probability
outside [0, 1). -/
def badDropoutBwdParams : FlashBwdParams :=
  { b := 1, h := 1, seqlen_q := 2, seqlen_k := 128, d := 64,
    precision := Precision.fp16,
    q_row_stride := 64, k_row_stride := 64, v_row_stride := 64,
    o_row_stride := 64,
    q_ptr := 100, k_ptr := 200, v_ptr := 300, o_ptr := 400,
    softmax_lse_ptr := 500,
    softmax_scale := 1, is_causal := false,
    p_dropout := 2, seed := 0, offset := 0,
    do_ptr := 600, saved_lse_ptr := 500, dq_ptr := 700, dk_ptr := 800,
    dv_ptr := 900 }

/-- Witness for claim C1: a negative sequence length and an out-of-range
dropout probability are both rejected with `InvalidParameters`, leaving
the stream untouched. -/
theorem invalid_params_rejected_witness :
    validFwd negSeqlenFwdParams = false ∧
    validBwd badDropoutBwdParams = false ∧
    ((mkFlashRunner false false).RunFwd negSeqlenFwdParams emptyStream =
      { runner := mkFlashRunner false false, params := negSeqlenFwdParams,
        stream := emptyStream, err := some FlashError.invalidParameters } ∧
     (mkFlashRunner false false).RunBwd badDropoutBwdParams emptyStream =
      { runner := mkFlashRunner false false, params := badDropoutBwdParams,
        stream := emptyStream, err := some FlashError.invalidParameters }) :=
  ⟨by decide, by decide,
   invalid_params_rejected negSeqlenFwdParams badDropoutBwdParams
     (by decide) (by decide) (mkFlashRunner false false) emptyStream⟩

/-- Claim C2: for every valid descriptor whose shape/precision combination
has no compiled variant in the fixed registry, `RunFwd` and `RunBwd` fail
with `UnsupportedConfiguration` at call time, return the stream exactly as
it was (no partial GPU work), and synchronizing afterwards yields exactly
the device memory the untouched stream would have produced — no output
buffer is mutated by the failed call. -/
theorem unsupported_config_rejected (pf : FlashFwdParams) (pb : FlashBwdParams)
    (hfv : validFwd pf = true) (hfs : selectFwdVariant pf = none)
    (hbv : validBwd pb = true) (hbs : selectBwdVariant pb = none) :
    ∀ (r : FlashRunner) (s : GpuStream),
      r.RunFwd pf s =
        { runner := r, params := pf, stream := s,
          err := some FlashError.unsupportedConfiguration } ∧
      r.RunBwd pb s =
        { runner := r, params := pb, stream := s,
          err := some FlashError.unsupportedConfiguration } ∧
      (∀ (sched : List Nat) (mem : DeviceMemory),
        syncStream sched (r.RunFwd pf s).stream mem = syncStream sched s mem ∧
        syncStream sched (r.RunBwd pb s).stream mem = syncStream sched s mem) := by
  intro r s
  have h1 : r.RunFwd pf s =
      { runner := r, params := pf, stream := s,
        err := some FlashError.unsupportedConfiguration } := by
    simp [FlashRunner.RunFwd, FlashFwdRunner.Run, hfv, hfs]
  have h2 : r.RunBwd pb s =
      { runner := r, params := pb, stream := s,
        err := some FlashError.unsupportedConfiguration } := by
    simp [FlashRunner.RunBwd, FlashBwdRunner.Run, hbv, hbs]
  exact ⟨h1, h2, fun sched mem => ⟨by rw [h1], by rw [h2]⟩⟩

/-- A valid forward descriptor whose head dimension (40) has no compiled
variant in the registry. -/
def headDim40FwdParams : FlashFwdParams :=
  { b := 1, h := 1, seqlen_q := 2, seqlen_k := 2, d := 40,
    precision := Precision.fp16,
    q_row_stride := 40, k_row_stride := 40, v_row_stride := 40,
    o_row_stride := 40,
    q_ptr := 100, k_ptr := 200, v_ptr := 300, o_ptr := 400,
    softmax_lse_ptr := 500,
    softmax_scale := 1, is_causal := true,
    p_dropout := 0, seed := 0, offset := 0 }

/-- A valid backward descriptor whose head dimension (40) has no compiled
variant in the registry. -/
def headDim40BwdParams : FlashBwdParams :=
  { toFlashFwdParams := headDim40FwdParams,
    do_ptr := 600, saved_lse_ptr := 500, dq_ptr := 700, dk_ptr := 800,
    dv_ptr := 900 }

/-- Witness for claim C2: a valid descriptor with head dimension 40 is
rejected with `UnsupportedConfiguration` on both paths, with the stream
untouched. -/
theorem unsupported_config_rejected_witness :
    validFwd headDim40FwdParams = true ∧
    selectFwdVariant headDim40FwdParams = none ∧
    validBwd headDim40BwdParams = true ∧
    selectBwdVariant headDim40BwdParams = none ∧
    ((mkFlashRunner false false).RunFwd headDim40FwdParams emptyStream =
      { runner := mkFlashRunner false false, params := headDim40FwdParams,
        stream := emptyStream, err := some FlashError.unsupportedConfiguration } ∧
     (mkFlashRunner false false).RunBwd headDim40BwdParams emptyStream =
      { runner := mkFlashRunner false false, params := headDim40BwdParams,
        stream := emptyStream, err := some FlashError.unsupportedConfiguration } ∧
     (∀ (sched : List Nat) (mem : DeviceMemory),
       syncStream sched ((mkFlashRunner false false).RunFwd headDim40FwdParams emptyStream).stream mem =
         syncStream sched emptyStream mem ∧
       syncStream sched ((mkFlashRunner false false).RunBwd headDim40BwdParams emptyStream).stream mem =
         syncStream sched emptyStream mem)) :=
  ⟨by decide, by decide, by decide, by decide,
   unsupported_config_rejected headDim40FwdParams headDim40BwdParams
     (by decide) (by decide) (by decide) (by decide)
     (mkFlashRunner false false) emptyStream⟩

/-- Claim C4: when the Runner is constructed with
`is_deterministic = true`, any two executions of an enqueued `RunBwd` call
on identical inputs (same descriptor, same initial stream, same device
memory — hence identical saved forward statistics), under any two device
schedules, produce bit-identical device memory and in particular
bit-identical query, key and value gradient buffers. -/
theorem runBwd_deterministic_bit_identical :
    ∀ (u : Bool) (p : FlashBwdParams) (schedA schedB : List Nat)
      (mem : DeviceMemory),
      syncStream schedA ((mkFlashRunner u true).RunBwd p emptyStream).stream mem =
      syncStream schedB ((mkFlashRunner u true).RunBwd p emptyStream).stream mem := by
  intro u p schedA schedB mem
  simp only [FlashRunner.RunBwd, FlashBwdRunner.Run, mkFlashRunner]
  by_cases h : validBwd p
  · cases hs : selectBwdVariant p with
    | none => simp [h, hs, syncStream, emptyStream]
    | some v =>
        simp [h, hs, emptyStream, syncStream, execCommand, execBwdKernel, tileOrder]
  · simp [h, syncStream, emptyStream]

/-- Claim C5: when the Runner is constructed with
`is_unit_test_mode = true`, any two executions of an enqueued `RunFwd`
call on identical inputs, under any two device schedules, produce
bit-identical device memory and in particular bit-identical attention
output buffers. -/
theorem runFwd_unit_test_bit_identical :
    ∀ (d : Bool) (p : FlashFwdParams) (schedA schedB : List Nat)
      (mem : DeviceMemory),
      syncStream schedA ((mkFlashRunner true d).RunFwd p emptyStream).stream mem =
      syncStream schedB ((mkFlashRunner true d).RunFwd p emptyStream).stream mem := by
  intro d p schedA schedB mem
  simp only [FlashRunner.RunFwd, FlashFwdRunner.Run, mkFlashRunner]
  by_cases h : validFwd p
  · cases hs : selectFwdVariant p with
    | none => simp [h, hs, syncStream, emptyStream]
    | some v =>
        simp [h, hs, emptyStream, syncStream, execCommand, execFwdKernel, tileOrder]
  · simp [h, syncStream, emptyStream]

/-- A valid backward descriptor with two key/value tiles, used to show the
nondeterministic accumulation path is genuinely order-sensitive. -/
def twoTileBwdParams : FlashBwdParams :=
  { b := 1, h := 1, seqlen_q := 1, seqlen_k := 256, d := 64,
    precision := Precision.fp16,
    q_row_stride := 64, k_row_stride := 64, v_row_stride := 64,
    o_row_stride := 64,
    q_ptr := 100, k_ptr := 200, v_ptr := 300, o_ptr := 400,
    softmax_lse_ptr := 500,
    softmax_scale := 1, is_causal := false,
    p_dropout := 0, seed := 7, offset := 0,
    do_ptr := 600, saved_lse_ptr := 500, dq_ptr := 700, dk_ptr := 800,
    dv_ptr := 900 }

set_option maxRecDepth 4000 in
/-- The determinism theorems are not vacuous: with
`deterministicMode = false` (unordered atomic accumulation) the model's
backward kernel really is schedule-sensitive — two device schedules give
different gradient bits on a two-tile descriptor. -/
theorem nondeterministic_accumulation_is_order_sensitive :
    execBwdKernel [0, 1] twoTileBwdParams false
        { out_buf := [], softmax_lse_buf := [], dq_buf := [], dk_buf := [],
          dv_buf := [] } ≠
      execBwdKernel [1, 0] twoTileBwdParams false
        { out_buf := [], softmax_lse_buf := [], dq_buf := [], dk_buf := [],
          dv_buf := [] } := by
  decide
